import Mathlib

/-!
# Verification of the SceneManager scene preparation and rendering pipeline

Shallow embedding of `SceneManager.cpp` (texture registry, material registry,
transform composer, shading binder, scene assembler, object renderers).

Modelling conventions:
* `float` literals of the source are modelled as the rationals they denote in
  the source text (`ℚ`); no arithmetic is performed on them by the code under
  study, only storage and retrieval, so rounding plays no role.
* The transform composer works over `ℝ` with exact trigonometric functions,
  mirroring the glm matrix formulas.
* GL calls are modelled by explicit state: a handle allocator
  (`glGenTextures`) and lists of live/deleted texture handles; shader uniform
  setters update a `UniformState` record and append the uniform's name to an
  upload log, one entry per setter call made by the source.
* The fixed-capacity array `m_textureIDs[16]` with counter `m_loadedTextures`
  is modelled as a list whose length is the counter: the source only ever
  writes at index `m_loadedTextures` and then increments it, which is an
  append.  (Capacity overflow is undefined in the reference and not claimed.)
-/

namespace SceneManager

/-- A 3-component vector (glm::vec3) over an arbitrary scalar type. -/
structure Vec3 (α : Type) where
  x : α
  y : α
  z : α
deriving DecidableEq, Repr

/-- `OBJECT_MATERIAL`: the material preset record stored in
`m_objectMaterials` (tag, ambient, diffuse, specular, shininess). -/
structure OBJECT_MATERIAL where
  ambientColor : Vec3 ℚ
  ambientStrength : ℚ
  diffuseColor : Vec3 ℚ
  specularColor : Vec3 ℚ
  shininess : ℚ
  tag : String
deriving DecidableEq, Repr

/-- The default-initialized `OBJECT_MATERIAL` (as in `OBJECT_MATERIAL m;`):
the `std::string` tag is empty; numeric members are modelled as zero.  (In
C++ the numeric members are indeterminate; no claim depends on their values,
only on the fact that they are the untouched caller-side defaults.) -/
def defaultMaterial : OBJECT_MATERIAL :=
  { ambientColor := ⟨0, 0, 0⟩
    ambientStrength := 0
    diffuseColor := ⟨0, 0, 0⟩
    specularColor := ⟨0, 0, 0⟩
    shininess := 0
    tag := "" }

instance : Inhabited OBJECT_MATERIAL := ⟨defaultMaterial⟩

/-- `TEXTURE_ID`: one entry of the `m_textureIDs` registry —
a GPU texture handle (`GLuint ID`) and its lookup tag. -/
structure TEXTURE_ID where
  ID : Nat
  tag : String
deriving DecidableEq, Repr

/-- OpenGL texture-object state: `nextHandle` is the next fresh name
`glGenTextures` hands out; `live` lists the allocated (never-freed) texture
names in allocation order; `deleted` lists names passed to
`glDeleteTextures` (which the source never calls). -/
structure GLState where
  nextHandle : Nat
  live : List Nat
  deleted : List Nat
deriving DecidableEq, Repr

/-- `glGenTextures(1, &id)`: allocates one fresh texture name. -/
def glGenTextures (gl : GLState) : Nat × GLState :=
  (gl.nextHandle,
    { nextHandle := gl.nextHandle + 1
      live := gl.live ++ [gl.nextHandle]
      deleted := gl.deleted })

/-- Result of `stbi_load`: image dimensions and channel count of a
successfully decoded image file. -/
structure ImageData where
  width : Nat
  height : Nat
  colorChannels : Nat
deriving DecidableEq, Repr

/-- `SceneManager::CreateGLTexture` (SceneManager.cpp:60-124).
`decoded` is the outcome of `stbi_load` on `filename` (`none` = decode
failure).  On decode success the source allocates a texture name, and if the
channel count is 3 or 4 it uploads the pixels and appends
`{ ID = textureID, tag = tag }` at index `m_loadedTextures`, incrementing the
counter; otherwise it returns `false` leaving the registry untouched. -/
def CreateGLTexture (decoded : Option ImageData) (tag : String)
    (gl : GLState) (entries : List TEXTURE_ID) :
    Bool × GLState × List TEXTURE_ID :=
  match decoded with
  | none => (false, gl, entries)
  | some image =>
    let gen := glGenTextures gl
    let textureID := gen.fst
    let gl1 := gen.snd
    if image.colorChannels = 3 then
      (true, gl1, entries ++ [{ ID := textureID, tag := tag }])
    else if image.colorChannels = 4 then
      (true, gl1, entries ++ [{ ID := textureID, tag := tag }])
    else
      (false, gl1, entries)

/-- `SceneManager::BindGLTextures` (SceneManager.cpp:132-140): for each
`i < m_loadedTextures`, `glActiveTexture(GL_TEXTURE0 + i)` then
`glBindTexture(GL_TEXTURE_2D, m_textureIDs[i].ID)`.  The result is the list
of (texture unit, texture name) bindings issued, in order. -/
def BindGLTextures (entries : List TEXTURE_ID) : List (Nat × Nat) :=
  entries.enum.map fun p => (p.fst, p.snd.ID)

/-- `SceneManager::DestroyGLTextures` (SceneManager.cpp:148-154): for each
registered entry it calls `glGenTextures(1, &m_textureIDs[i].ID)`,
overwriting the stored handle with a freshly allocated one.  Nothing is
deleted. -/
def DestroyGLTextures (gl : GLState) :
    List TEXTURE_ID → GLState × List TEXTURE_ID
  | [] => (gl, [])
  | e :: rest =>
    let gen := glGenTextures gl
    let r := DestroyGLTextures gen.snd rest
    (r.fst, { e with ID := gen.fst } :: r.snd)

/-- The while loop of `SceneManager::FindTextureID` (SceneManager.cpp:162-180):
scan from the front, return the first matching entry's `ID`, or the initial
value `-1` when the scan runs off the end. -/
def FindTextureID (entries : List TEXTURE_ID) (tag : String) : Int :=
  match entries with
  | [] => -1
  | e :: rest => if e.tag = tag then (e.ID : Int) else FindTextureID rest tag

/-- The while loop of `SceneManager::FindTextureSlot`
(SceneManager.cpp:188-206) with the running `index` made explicit:
return the index of the first matching entry, or `-1`. -/
def FindTextureSlotAux (tag : String) (index : Nat) :
    List TEXTURE_ID → Int
  | [] => -1
  | e :: rest =>
    if e.tag = tag then (index : Int) else FindTextureSlotAux tag (index + 1) rest

/-- `SceneManager::FindTextureSlot` (SceneManager.cpp:188-206). -/
def FindTextureSlot (entries : List TEXTURE_ID) (tag : String) : Int :=
  FindTextureSlotAux tag 0 entries

/-- The field copy performed by `FindMaterial` on a tag match
(SceneManager.cpp:228-230): only `diffuseColor`, `specularColor` and
`shininess` of the out-parameter are assigned. -/
def copyMaterialFields (dst src : OBJECT_MATERIAL) : OBJECT_MATERIAL :=
  { dst with
      diffuseColor := src.diffuseColor
      specularColor := src.specularColor
      shininess := src.shininess }

/-- The while loop of `SceneManager::FindMaterial` (SceneManager.cpp:221-236):
scan for the first entry with the given tag; on a match copy its
diffuse/specular/shininess into the out-parameter, otherwise leave it. -/
def FindMaterialScan (tag : String) :
    List OBJECT_MATERIAL → OBJECT_MATERIAL → OBJECT_MATERIAL
  | [], material => material
  | e :: rest, material =>
    if e.tag = tag then copyMaterialFields material e
    else FindMaterialScan tag rest material

/-- `SceneManager::FindMaterial` (SceneManager.cpp:214-239).  Returns the
boolean result together with the final value of the `material`
out-parameter.  Note the source returns `false` only when the registry is
empty; after the scan it returns `true` unconditionally, whether or not
`bFound` was ever set. -/
def FindMaterial (mats : List OBJECT_MATERIAL) (tag : String)
    (material : OBJECT_MATERIAL) : Bool × OBJECT_MATERIAL :=
  if mats.length = 0 then (false, material)
  else (true, FindMaterialScan tag mats material)

/-- The shader-side uniform store written by the shading binder, together
with an upload log: one uniform name is appended per setter call issued by
the source, in call order. -/
structure UniformState where
  bUseTexture : Bool
  objectColor : Vec3 ℚ × ℚ
  objectTexture : Int
  UVscale : ℚ × ℚ
  materialDiffuseColor : Vec3 ℚ
  materialSpecularColor : Vec3 ℚ
  materialShininess : ℚ
  uploads : List String
deriving DecidableEq, Repr

/-- An initial uniform store (all zero, empty upload log). -/
def initialUniforms : UniformState :=
  { bUseTexture := false
    objectColor := (⟨0, 0, 0⟩, 0)
    objectTexture := 0
    UVscale := (0, 0)
    materialDiffuseColor := ⟨0, 0, 0⟩
    materialSpecularColor := ⟨0, 0, 0⟩
    materialShininess := 0
    uploads := [] }

/-- `SceneManager::SetShaderColor` (SceneManager.cpp:285-304): disables
texture sampling and uploads the flat RGBA color. -/
def SetShaderColor (r g b a : ℚ) (u : UniformState) : UniformState :=
  { u with
      bUseTexture := false
      objectColor := (⟨r, g, b⟩, a)
      uploads := u.uploads ++ ["bUseTexture", "objectColor"] }

/-- `SceneManager::SetShaderTexture` (SceneManager.cpp:312-323): enables
texture sampling and uploads `FindTextureSlot(textureTag)` as the sampler
value (`-1` when the tag is not registered). -/
def SetShaderTexture (entries : List TEXTURE_ID) (textureTag : String)
    (u : UniformState) : UniformState :=
  { u with
      bUseTexture := true
      objectTexture := FindTextureSlot entries textureTag
      uploads := u.uploads ++ ["bUseTexture", "objectTexture"] }

/-- `SceneManager::SetTextureUVScale` (SceneManager.cpp:331-337). -/
def SetTextureUVScale (uScale vScale : ℚ) (u : UniformState) : UniformState :=
  { u with
      UVscale := (uScale, vScale)
      uploads := u.uploads ++ ["UVscale"] }

/-- `SceneManager::SetShaderMaterial` (SceneManager.cpp:345-361): when the
registry is non-empty, runs `FindMaterial` on a default-initialized local
`OBJECT_MATERIAL` and, if the returned flag is set, uploads the local's
diffuse/specular/shininess. -/
def SetShaderMaterial (mats : List OBJECT_MATERIAL) (materialTag : String)
    (u : UniformState) : UniformState :=
  if 0 < mats.length then
    let found := FindMaterial mats materialTag defaultMaterial
    if found.fst then
      { u with
          materialDiffuseColor := found.snd.diffuseColor
          materialSpecularColor := found.snd.specularColor
          materialShininess := found.snd.shininess
          uploads := u.uploads ++
            ["material.diffuseColor", "material.specularColor",
             "material.shininess"] }
    else u
  else u

/-- `SceneManager::DefineObjectMaterials` (SceneManager.cpp:421-459),
reproducing the source's local-variable assignments and `push_back` calls in
order.  Note the fourth block assigns the cloth values to the (already
pushed) `glassMaterial` local but pushes the default-initialized
`clothMaterial`. -/
def DefineObjectMaterials : List OBJECT_MATERIAL :=
  let clayMaterial : OBJECT_MATERIAL :=
    { ambientColor := ⟨0.2, 0.2, 0.3⟩
      ambientStrength := 0.3
      diffuseColor := ⟨0.4, 0.4, 0.5⟩
      specularColor := ⟨0.2, 0.2, 0.4⟩
      shininess := 0.5
      tag := "clay" }
  let mats1 := [clayMaterial]
  let woodMaterial : OBJECT_MATERIAL :=
    { defaultMaterial with
        diffuseColor := ⟨0.2, 0.2, 0.3⟩
        specularColor := ⟨0, 0, 0⟩
        shininess := 0.1
        tag := "wood" }
  let mats2 := mats1 ++ [woodMaterial]
  let glassMaterial : OBJECT_MATERIAL :=
    { defaultMaterial with
        diffuseColor := ⟨0.2, 0.2, 0.2⟩
        specularColor := ⟨1, 1, 1⟩
        shininess := 95
        tag := "glass" }
  let mats3 := mats2 ++ [glassMaterial]
  let clothMaterial : OBJECT_MATERIAL := defaultMaterial
  -- the source then reassigns the glassMaterial local (not the pushed copy):
  let _glassMaterialAfterCloth : OBJECT_MATERIAL :=
    { glassMaterial with
        diffuseColor := ⟨0.2, 0.2, 0.2⟩
        specularColor := ⟨0.2, 0.2, 0.4⟩
        shininess := 0.5
        tag := "cloth" }
  mats3 ++ [clothMaterial]

/-- The procedural mesh primitives of the shape-mesh library. -/
inductive Primitive
  | plane
  | sphere
  | torus
  | taperedCylinder
  | box
  | cylinder
  | prism
deriving DecidableEq, Repr

/-- The per-object render routines of the scene. -/
inductive ObjectRoutine
  | floor
  | wall
  | bookcase
  | window
  | vase
  | book
  | desk
  | cat
deriving DecidableEq, Repr

/-- Draw calls issued by `SceneManager::RenderFloor` (SceneManager.cpp:568-603). -/
def RenderFloorDraws : List Primitive := [.plane]

/-- Draw calls issued by `SceneManager::RenderWall` (SceneManager.cpp:607-693). -/
def RenderWallDraws : List Primitive := [.plane, .plane, .plane]

/-- Draw calls issued by `SceneManager::RenderBookcase` (SceneManager.cpp:824-962). -/
def RenderBookcaseDraws : List Primitive := [.box, .box, .box, .box, .box]

/-- Draw calls issued by `SceneManager::RenderWindow` (SceneManager.cpp:698-735). -/
def RenderWindowDraws : List Primitive := [.box]

/-- Draw calls issued by `SceneManager::RenderVase` (SceneManager.cpp:737-822). -/
def RenderVaseDraws : List Primitive := [.sphere, .taperedCylinder, .taperedCylinder]

/-- Draw calls issued by `SceneManager::RenderBook` (SceneManager.cpp:964-1177);
note the seventh transform block sets a texture but issues no draw call. -/
def RenderBookDraws : List Primitive :=
  [.box, .box, .box, .box, .box, .box, .box, .box]

/-- Draw calls issued by `SceneManager::RenderDesk` (SceneManager.cpp:1179-1261). -/
def RenderDeskDraws : List Primitive := [.box, .box, .box]

/-- Draw calls issued by `SceneManager::RenderCat` (SceneManager.cpp:1264-1535). -/
def RenderCatDraws : List Primitive :=
  [.cylinder, .cylinder, .sphere, .taperedCylinder, .prism, .taperedCylinder,
   .prism, .cylinder, .cylinder, .cylinder, .cylinder, .cylinder]

/-- The draw calls of one object routine. -/
def routineDraws : ObjectRoutine → List Primitive
  | .floor => RenderFloorDraws
  | .wall => RenderWallDraws
  | .bookcase => RenderBookcaseDraws
  | .window => RenderWindowDraws
  | .vase => RenderVaseDraws
  | .book => RenderBookDraws
  | .desk => RenderDeskDraws
  | .cat => RenderCatDraws

/-- The object-routine calls made by `SceneManager::RenderScene`
(SceneManager.cpp:549-560), in source order. -/
def RenderSceneRoutines : List ObjectRoutine :=
  [.floor, .wall, .bookcase, .window, .vase, .book, .desk, .cat]

/-- `SceneManager::RenderScene` invoked on a given frame: the routines hold
no per-frame state and re-derive everything from literal constants, so the
issued draw-call sequence is a function of nothing but the prepared scene;
the frame index is ignored. -/
def RenderScene (_frame : Nat) : List Primitive :=
  (RenderSceneRoutines.map routineDraws).flatten

/-! ## Transform composer (`SetTransformations`, SceneManager.cpp:247-277)

4×4 matrices over `ℝ` in the mathematical (row, column) convention acting on
column vectors; glm stores matrices column-major, so glm's `M[col][row]` is
entry `(row, col)` here, and the source's `translation * rotationZ *
rotationY * rotationX * scale` is the same product of mathematical
matrices. -/

/-- `glm::radians`: degrees to radians. -/
noncomputable def radians (degrees : ℝ) : ℝ := degrees * (Real.pi / 180)

/-- `glm::normalize` on a 3-vector. -/
noncomputable def glmNormalize (v : Vec3 ℝ) : Vec3 ℝ :=
  let len := Real.sqrt (v.x ^ 2 + v.y ^ 2 + v.z ^ 2)
  ⟨v.x / len, v.y / len, v.z / len⟩

/-- `glm::scale(v)`: the 4×4 scale matrix. -/
noncomputable def glmScale (v : Vec3 ℝ) : Matrix (Fin 4) (Fin 4) ℝ :=
  !![v.x, 0, 0, 0;
     0, v.y, 0, 0;
     0, 0, v.z, 0;
     0, 0, 0, 1]

/-- `glm::translate(v)`: the 4×4 translation matrix. -/
noncomputable def glmTranslate (v : Vec3 ℝ) : Matrix (Fin 4) (Fin 4) ℝ :=
  !![1, 0, 0, v.x;
     0, 1, 0, v.y;
     0, 0, 1, v.z;
     0, 0, 0, 1]

/-- `glm::rotate(angle, v)`: the axis-angle (Rodrigues) rotation matrix glm
builds — `c = cos(angle)`, `s = sin(angle)`, `axis = normalize(v)`,
`temp = (1 - c) * axis` — embedded in a 4×4 matrix.  glm's column-major
`Result[col][row]` entries appear here at `(row, col)`. -/
noncomputable def glmRotate (angle : ℝ) (v : Vec3 ℝ) : Matrix (Fin 4) (Fin 4) ℝ :=
  let c := Real.cos angle
  let s := Real.sin angle
  let axis := glmNormalize v
  let temp : Vec3 ℝ := ⟨(1 - c) * axis.x, (1 - c) * axis.y, (1 - c) * axis.z⟩
  !![c + temp.x * axis.x,     temp.y * axis.x - s * axis.z, temp.z * axis.x + s * axis.y, 0;
     temp.x * axis.y + s * axis.z, c + temp.y * axis.y,     temp.z * axis.y - s * axis.x, 0;
     temp.x * axis.z - s * axis.y, temp.y * axis.z + s * axis.x, c + temp.z * axis.z,     0;
     0, 0, 0, 1]

/-- `SceneManager::SetTransformations` (SceneManager.cpp:247-277): the model
matrix uploaded to the `model` uniform, built exactly as in the source:
`translation * rotationZ * rotationY * rotationX * scale`, each rotation
from `glm::rotate(glm::radians(angle), axis)`. -/
noncomputable def SetTransformations (scaleXYZ : Vec3 ℝ)
    (XrotationDegrees YrotationDegrees ZrotationDegrees : ℝ)
    (positionXYZ : Vec3 ℝ) : Matrix (Fin 4) (Fin 4) ℝ :=
  let scale := glmScale scaleXYZ
  let rotationX := glmRotate (radians XrotationDegrees) ⟨1, 0, 0⟩
  let rotationY := glmRotate (radians YrotationDegrees) ⟨0, 1, 0⟩
  let rotationZ := glmRotate (radians ZrotationDegrees) ⟨0, 0, 1⟩
  let translation := glmTranslate positionXYZ
  translation * rotationZ * rotationY * rotationX * scale

/-- The textbook rotation matrix about the X axis (the spec's `RotateX`). -/
noncomputable def RotationMatrixX (θ : ℝ) : Matrix (Fin 4) (Fin 4) ℝ :=
  !![1, 0, 0, 0;
     0, Real.cos θ, -Real.sin θ, 0;
     0, Real.sin θ, Real.cos θ, 0;
     0, 0, 0, 1]

/-- The textbook rotation matrix about the Y axis (the spec's `RotateY`). -/
noncomputable def RotationMatrixY (θ : ℝ) : Matrix (Fin 4) (Fin 4) ℝ :=
  !![Real.cos θ, 0, Real.sin θ, 0;
     0, 1, 0, 0;
     -Real.sin θ, 0, Real.cos θ, 0;
     0, 0, 0, 1]

/-- The textbook rotation matrix about the Z axis (the spec's `RotateZ`). -/
noncomputable def RotationMatrixZ (θ : ℝ) : Matrix (Fin 4) (Fin 4) ℝ :=
  !![Real.cos θ, -Real.sin θ, 0, 0;
     Real.sin θ, Real.cos θ, 0, 0;
     0, 0, 1, 0;
     0, 0, 0, 1]

/-! ## Concrete fixtures used by witnesses and counterexamples -/

/-- A default texture entry (used only as the `getD` fallback). -/
def defaultTexture : TEXTURE_ID := { ID := 0, tag := "" }

/-- A small concrete texture registry with pairwise-distinct tags. -/
def demoTextures : List TEXTURE_ID :=
  [{ ID := 10, tag := "floor" }, { ID := 11, tag := "wall" },
   { ID := 12, tag := "vase" }]

/-- A concrete texture registry containing duplicate tags. -/
def demoTexturesDup : List TEXTURE_ID :=
  [{ ID := 10, tag := "floor" }, { ID := 11, tag := "wall" },
   { ID := 12, tag := "wall" }, { ID := 13, tag := "floor" }]

/-- A concrete GL state. -/
def demoGL : GLState := { nextHandle := 100, live := [7], deleted := [] }

/-- Concrete material presets for the duplicate-tag lookup witness. -/
def demoMatA : OBJECT_MATERIAL :=
  { defaultMaterial with diffuseColor := ⟨1, 0, 0⟩, tag := "a" }

/-- First material bearing tag "b". -/
def demoMatB : OBJECT_MATERIAL :=
  { defaultMaterial with diffuseColor := ⟨0, 1, 0⟩, shininess := 3, tag := "b" }

/-- A later duplicate also bearing tag "b". -/
def demoMatBdup : OBJECT_MATERIAL :=
  { defaultMaterial with diffuseColor := ⟨0, 0, 1⟩, shininess := 9, tag := "b" }

/-! ## Helper lemmas on the linear scans -/

/-- A scan over entries none of which bears the tag leaves the
out-parameter untouched. -/
theorem FindMaterialScan_no_match {tag : String} :
    ∀ (l : List OBJECT_MATERIAL) (m : OBJECT_MATERIAL),
      (∀ e ∈ l, e.tag ≠ tag) → FindMaterialScan tag l m = m
  | [], _, _ => rfl
  | e :: rest, m, h => by
    rw [FindMaterialScan, if_neg (h e (List.mem_cons_self e rest))]
    exact FindMaterialScan_no_match rest m fun x hx => h x (List.mem_cons_of_mem e hx)

/-- The material scan is `List.find?`: the first matching entry's fields are
copied; absent a match the out-parameter is returned unchanged. -/
theorem FindMaterialScan_eq_find? (tag : String) :
    ∀ (l : List OBJECT_MATERIAL) (m : OBJECT_MATERIAL),
      FindMaterialScan tag l m =
        (match l.find? (fun e => e.tag == tag) with
         | some e => copyMaterialFields m e
         | none => m)
  | [], _ => rfl
  | e :: rest, m => by
    by_cases h : e.tag = tag
    · simp [FindMaterialScan, List.find?_cons, h]
    · simp [FindMaterialScan, List.find?_cons, h,
        FindMaterialScan_eq_find? tag rest m]

/-- The scan copies the fields of the first entry bearing the tag. -/
theorem FindMaterialScan_first {tag : String} :
    ∀ (pre : List OBJECT_MATERIAL) (me : OBJECT_MATERIAL)
      (post : List OBJECT_MATERIAL) (m : OBJECT_MATERIAL),
      me.tag = tag → (∀ x ∈ pre, x.tag ≠ tag) →
      FindMaterialScan tag (pre ++ me :: post) m = copyMaterialFields m me
  | [], me, post, m, hme, _ => by
    simp [FindMaterialScan, hme]
  | e :: rest, me, post, m, hme, hpre => by
    rw [List.cons_append, FindMaterialScan,
      if_neg (hpre e (List.mem_cons_self e rest))]
    exact FindMaterialScan_first rest me post m hme
      fun x hx => hpre x (List.mem_cons_of_mem e hx)

/-- `FindTextureID` on a registry with no matching tag returns `-1`. -/
theorem FindTextureID_no_match {tag : String} :
    ∀ (l : List TEXTURE_ID), (∀ e ∈ l, e.tag ≠ tag) →
      FindTextureID l tag = -1
  | [], _ => rfl
  | e :: rest, h => by
    rw [FindTextureID, if_neg (h e (List.mem_cons_self e rest))]
    exact FindTextureID_no_match rest fun x hx => h x (List.mem_cons_of_mem e hx)

/-- `FindTextureID` returns the ID of the first entry bearing the tag. -/
theorem FindTextureID_first {tag : String} :
    ∀ (pre : List TEXTURE_ID) (e : TEXTURE_ID) (post : List TEXTURE_ID),
      e.tag = tag → (∀ x ∈ pre, x.tag ≠ tag) →
      FindTextureID (pre ++ e :: post) tag = (e.ID : Int)
  | [], e, post, he, _ => by simp [FindTextureID, he]
  | x :: rest, e, post, he, hpre => by
    rw [List.cons_append, FindTextureID,
      if_neg (hpre x (List.mem_cons_self x rest))]
    exact FindTextureID_first rest e post he
      fun y hy => hpre y (List.mem_cons_of_mem x hy)

/-- The slot scan on a registry with no matching tag returns `-1`,
whatever the running index. -/
theorem FindTextureSlotAux_no_match {tag : String} :
    ∀ (l : List TEXTURE_ID) (i : Nat), (∀ e ∈ l, e.tag ≠ tag) →
      FindTextureSlotAux tag i l = -1
  | [], _, _ => rfl
  | e :: rest, i, h => by
    rw [FindTextureSlotAux, if_neg (h e (List.mem_cons_self e rest))]
    exact FindTextureSlotAux_no_match rest (i + 1)
      fun x hx => h x (List.mem_cons_of_mem e hx)

/-- The slot scan returns the index of the first entry bearing the tag. -/
theorem FindTextureSlotAux_first {tag : String} :
    ∀ (pre : List TEXTURE_ID) (e : TEXTURE_ID) (post : List TEXTURE_ID)
      (i : Nat), e.tag = tag → (∀ x ∈ pre, x.tag ≠ tag) →
      FindTextureSlotAux tag i (pre ++ e :: post) = ((i + pre.length : Nat) : Int)
  | [], e, post, i, he, _ => by simp [FindTextureSlotAux, he]
  | x :: rest, e, post, i, he, hpre => by
    rw [List.cons_append, FindTextureSlotAux,
      if_neg (hpre x (List.mem_cons_self x rest))]
    rw [FindTextureSlotAux_first rest e post (i + 1) he
      fun y hy => hpre y (List.mem_cons_of_mem x hy)]
    simp only [List.length_cons]
    congr 1
    omega

/-- On a registry with pairwise-distinct tags, the slot scan started at
index `i` finds the `n`-th entry's tag at `i + n`. -/
theorem FindTextureSlotAux_nodup :
    ∀ (entries : List TEXTURE_ID) (i n : Nat) (hn : n < entries.length),
      (entries.map TEXTURE_ID.tag).Nodup →
      FindTextureSlotAux entries[n].tag i entries = ((i + n : Nat) : Int)
  | [], _, n, hn, _ => by simp at hn
  | e :: rest, i, 0, _, _ => by simp [FindTextureSlotAux]
  | e :: rest, i, n + 1, hn, hnd => by
    have hnd' : (rest.map TEXTURE_ID.tag).Nodup := (List.nodup_cons.mp hnd).2
    have hnotin : e.tag ∉ rest.map TEXTURE_ID.tag := (List.nodup_cons.mp hnd).1
    have hn' : n < rest.length := by simpa using hn
    have htag : rest[n].tag ∈ rest.map TEXTURE_ID.tag :=
      List.mem_map_of_mem _ (List.getElem_mem hn')
    have hne : e.tag ≠ rest[n].tag := fun h => hnotin (h ▸ htag)
    have step : (e :: rest)[n + 1] = rest[n] := by simp
    rw [step, FindTextureSlotAux, if_neg hne,
      FindTextureSlotAux_nodup rest (i + 1) n hn' hnd']
    congr 1
    omega

/-- glm's axis-angle matrix on the unit X axis is the textbook X rotation. -/
theorem glmRotate_unitX (θ : ℝ) :
    glmRotate θ ⟨1, 0, 0⟩ = RotationMatrixX θ := by
  unfold glmRotate RotationMatrixX glmNormalize
  norm_num

/-- glm's axis-angle matrix on the unit Y axis is the textbook Y rotation. -/
theorem glmRotate_unitY (θ : ℝ) :
    glmRotate θ ⟨0, 1, 0⟩ = RotationMatrixY θ := by
  unfold glmRotate RotationMatrixY glmNormalize
  norm_num

/-- glm's axis-angle matrix on the unit Z axis is the textbook Z rotation. -/
theorem glmRotate_unitZ (θ : ℝ) :
    glmRotate θ ⟨0, 0, 1⟩ = RotationMatrixZ θ := by
  unfold glmRotate RotationMatrixZ glmNormalize
  norm_num

/-! ## Claim theorems -/

/-- C1 (counterexample): after a successful `SetShaderMaterial("wood")`,
calling `SetShaderMaterial("nonexistent")` does NOT leave the material
uniforms unchanged: the diffuse-color uniform moves away from the wood value
and three further uploads are issued (because `FindMaterial` reports found
whenever the registry is non-empty, the default-initialized local material
is uploaded). -/
theorem SetShaderMaterial_missing_tag_counterexample :
    (SetShaderMaterial DefineObjectMaterials "nonexistent"
        (SetShaderMaterial DefineObjectMaterials "wood" initialUniforms)).materialDiffuseColor ≠
      (SetShaderMaterial DefineObjectMaterials "wood" initialUniforms).materialDiffuseColor ∧
    (SetShaderMaterial DefineObjectMaterials "nonexistent"
        (SetShaderMaterial DefineObjectMaterials "wood" initialUniforms)).uploads ≠
      (SetShaderMaterial DefineObjectMaterials "wood" initialUniforms).uploads := by
  constructor
  · have h1 : (SetShaderMaterial DefineObjectMaterials "wood"
        initialUniforms).materialDiffuseColor = ⟨0.2, 0.2, 0.3⟩ := rfl
    have h2 : (SetShaderMaterial DefineObjectMaterials "nonexistent"
        (SetShaderMaterial DefineObjectMaterials "wood"
          initialUniforms)).materialDiffuseColor = ⟨0, 0, 0⟩ := rfl
    rw [h1, h2]
    simp only [ne_eq, Vec3.mk.injEq, not_and]
    intro h
    norm_num at h
  · have h1 : (SetShaderMaterial DefineObjectMaterials "wood"
        initialUniforms).uploads =
        ["material.diffuseColor", "material.specularColor",
         "material.shininess"] := rfl
    have h2 : (SetShaderMaterial DefineObjectMaterials "nonexistent"
        (SetShaderMaterial DefineObjectMaterials "wood" initialUniforms)).uploads =
        ["material.diffuseColor", "material.specularColor", "material.shininess",
         "material.diffuseColor", "material.specularColor",
         "material.shininess"] := rfl
    rw [h1, h2]
    decide

/-- C1 (amended): with a non-empty material registry, `SetShaderMaterial`
with a tag matching no registry entry does not leave the material uniforms
alone: it re-uploads all three material uniforms, overwriting them with the
values of the default-initialized local `OBJECT_MATERIAL` (since
`FindMaterial` reports found whenever the registry is non-empty while
leaving the out-parameter untouched). -/
theorem SetShaderMaterial_missing_tag_uploads_defaults
    (mats : List OBJECT_MATERIAL) (tag : String) (u : UniformState)
    (hne : mats ≠ []) (hmiss : ∀ e ∈ mats, e.tag ≠ tag) :
    SetShaderMaterial mats tag u =
      { u with
          materialDiffuseColor := defaultMaterial.diffuseColor
          materialSpecularColor := defaultMaterial.specularColor
          materialShininess := defaultMaterial.shininess
          uploads := u.uploads ++
            ["material.diffuseColor", "material.specularColor",
             "material.shininess"] } := by
  have hlen : 0 < mats.length := List.length_pos.mpr hne
  have hne0 : mats.length ≠ 0 := Nat.pos_iff_ne_zero.mp hlen
  have hscan := FindMaterialScan_no_match mats defaultMaterial hmiss
  simp [SetShaderMaterial, FindMaterial, hlen, hne0, hscan]

/-- C1 (witness): the amended claim applied to the concrete registry of the
scene and the tag "nonexistent". -/
theorem SetShaderMaterial_missing_tag_uploads_defaults_witness :
    DefineObjectMaterials.map OBJECT_MATERIAL.tag = ["clay", "wood", "glass", ""] ∧
    SetShaderMaterial DefineObjectMaterials "nonexistent" initialUniforms =
      { initialUniforms with
          materialDiffuseColor := defaultMaterial.diffuseColor
          materialSpecularColor := defaultMaterial.specularColor
          materialShininess := defaultMaterial.shininess
          uploads := ["material.diffuseColor", "material.specularColor",
                      "material.shininess"] } := by
  refine ⟨rfl, ?_⟩
  have hne : DefineObjectMaterials ≠ [] := by
    have hlen4 : DefineObjectMaterials.length = 4 := rfl
    intro h
    rw [h] at hlen4
    simp at hlen4
  have h := SetShaderMaterial_missing_tag_uploads_defaults
    DefineObjectMaterials "nonexistent" initialUniforms hne (by decide)
  simpa [initialUniforms] using h

/-- C2 (counterexample): `FindMaterial` on a tag matching no entry of the
non-empty scene registry nevertheless returns `true`, so the found flag is
not "false exactly when no entry has the tag". -/
theorem FindMaterial_found_flag_counterexample :
    (FindMaterial DefineObjectMaterials "nonexistent" defaultMaterial).fst = true ∧
    "nonexistent" ∉ DefineObjectMaterials.map OBJECT_MATERIAL.tag :=
  ⟨rfl, by decide⟩

/-- C2 (amended): `FindMaterial` returns `false` exactly when the registry
is empty; the out-parameter is populated with the first matching entry's
diffuseColor/specularColor/shininess when a match exists and is returned
unchanged otherwise. -/
theorem FindMaterial_spec (mats : List OBJECT_MATERIAL) (tag : String)
    (m : OBJECT_MATERIAL) :
    (FindMaterial mats tag m).fst = !mats.isEmpty ∧
    (FindMaterial mats tag m).snd =
      (match mats.find? (fun e => e.tag == tag) with
       | some e => copyMaterialFields m e
       | none => m) := by
  unfold FindMaterial
  rcases mats with _ | ⟨e, rest⟩
  · simp
  · simp [FindMaterialScan_eq_find?]

/-- C3: `SetTransformations` uploads exactly the matrix
`Translate * RotateZ * RotateY * RotateX * Scale` (scale innermost,
translation outermost, Z the outermost of the three rotations), each
rotation built from the angle converted from degrees to radians. -/
theorem SetTransformations_composition (scaleXYZ : Vec3 ℝ)
    (XrotationDegrees YrotationDegrees ZrotationDegrees : ℝ)
    (positionXYZ : Vec3 ℝ) :
    SetTransformations scaleXYZ XrotationDegrees YrotationDegrees
        ZrotationDegrees positionXYZ =
      glmTranslate positionXYZ *
        RotationMatrixZ (radians ZrotationDegrees) *
        RotationMatrixY (radians YrotationDegrees) *
        RotationMatrixX (radians XrotationDegrees) *
        glmScale scaleXYZ := by
  simp only [SetTransformations]
  rw [glmRotate_unitX, glmRotate_unitY, glmRotate_unitZ]

/-- C4: after `BindGLTextures`, the `n`-th loaded texture (0-indexed, load
order) is bound to texture unit `n`, and `FindTextureSlot` on its tag
returns exactly `n`, provided the loaded tags are pairwise distinct. -/
theorem BindGLTextures_slot_correspondence (entries : List TEXTURE_ID)
    (n : Nat) (hn : n < entries.length)
    (hnd : (entries.map TEXTURE_ID.tag).Nodup) :
    (BindGLTextures entries)[n]? = some (n, entries[n].ID) ∧
    FindTextureSlot entries entries[n].tag = (n : Int) := by
  constructor
  · simp [BindGLTextures, List.getElem?_map, List.getElem?_enum,
      List.getElem?_eq_getElem hn]
  · simpa [FindTextureSlot] using FindTextureSlotAux_nodup entries 0 n hn hnd

/-- C4 (witness): the correspondence at the concrete three-texture registry
and n = 1. -/
theorem BindGLTextures_slot_correspondence_witness :
    (BindGLTextures demoTextures)[1]? = some (1, 11) ∧
    FindTextureSlot demoTextures "wall" = 1 := by
  have h := BindGLTextures_slot_correspondence demoTextures 1 (by decide) (by decide)
  simpa [demoTextures] using h

/-- C5: `SetShaderTexture` with an unregistered tag uploads `-1` as the
sampler uniform while still setting the use-texture flag to `true`, and
both lookups `FindTextureID` and `FindTextureSlot` return the sentinel `-1`
rather than failing. -/
theorem SetShaderTexture_missing_tag (entries : List TEXTURE_ID)
    (tag : String) (u : UniformState) (h : ∀ e ∈ entries, e.tag ≠ tag) :
    SetShaderTexture entries tag u =
      { u with
          bUseTexture := true
          objectTexture := -1
          uploads := u.uploads ++ ["bUseTexture", "objectTexture"] } ∧
    FindTextureID entries tag = -1 ∧
    FindTextureSlot entries tag = -1 := by
  have hslot : FindTextureSlot entries tag = -1 :=
    FindTextureSlotAux_no_match entries 0 h
  exact ⟨by simp [SetShaderTexture, hslot], FindTextureID_no_match entries h, hslot⟩

/-- C5 (witness): the sentinel behavior at the concrete registry and the
tag "nonexistent". -/
theorem SetShaderTexture_missing_tag_witness :
    "nonexistent" ∉ demoTextures.map TEXTURE_ID.tag ∧
    SetShaderTexture demoTextures "nonexistent" initialUniforms =
      { initialUniforms with
          bUseTexture := true
          objectTexture := -1
          uploads := ["bUseTexture", "objectTexture"] } ∧
    FindTextureID demoTextures "nonexistent" = -1 ∧
    FindTextureSlot demoTextures "nonexistent" = -1 := by
  have h := SetShaderTexture_missing_tag demoTextures "nonexistent"
    initialUniforms (by decide)
  exact ⟨by decide, by simpa [initialUniforms] using h.1, h.2.1, h.2.2⟩

/-- C6: with duplicate tags permitted, every lookup returns the entry of
the first insertion bearing the looked-up tag: `FindTextureID` its ID,
`FindTextureSlot` its index, and `FindMaterial` populates the out-parameter
from it. -/
theorem Lookups_first_insertion
    (pre post : List TEXTURE_ID) (e : TEXTURE_ID)
    (mpre mpost : List OBJECT_MATERIAL) (me : OBJECT_MATERIAL)
    (ttag mtag : String) (m : OBJECT_MATERIAL)
    (hteq : e.tag = ttag) (htpre : ∀ x ∈ pre, x.tag ≠ ttag)
    (hmeq : me.tag = mtag) (hmpre : ∀ x ∈ mpre, x.tag ≠ mtag) :
    FindTextureID (pre ++ e :: post) ttag = (e.ID : Int) ∧
    FindTextureSlot (pre ++ e :: post) ttag = (pre.length : Int) ∧
    (FindMaterial (mpre ++ me :: mpost) mtag m).snd = copyMaterialFields m me := by
  refine ⟨FindTextureID_first pre e post hteq htpre, ?_, ?_⟩
  · simpa [FindTextureSlot] using
      FindTextureSlotAux_first pre e post 0 hteq htpre
  · have hlen : (mpre ++ me :: mpost).length ≠ 0 := by simp
    simp only [FindMaterial, if_neg hlen]
    exact FindMaterialScan_first mpre me mpost m hmeq hmpre

/-- C6 (witness): first-match behavior on concrete registries containing
duplicate tags ("wall" appears twice, "b" appears twice). -/
theorem Lookups_first_insertion_witness :
    FindTextureID demoTexturesDup "wall" = 11 ∧
    FindTextureSlot demoTexturesDup "wall" = 1 ∧
    (FindMaterial [demoMatA, demoMatB, demoMatBdup] "b" defaultMaterial).snd =
      copyMaterialFields defaultMaterial demoMatB := by
  have h := Lookups_first_insertion
    ([{ ID := 10, tag := "floor" }] : List TEXTURE_ID)
    ([{ ID := 12, tag := "wall" }, { ID := 13, tag := "floor" }] : List TEXTURE_ID)
    ({ ID := 11, tag := "wall" } : TEXTURE_ID)
    [demoMatA] [demoMatBdup] demoMatB "wall" "b" defaultMaterial
    rfl (by decide) rfl (by decide)
  simpa [demoTexturesDup] using h

/-- C7: `CreateGLTexture` returns `true` exactly when the image decodes and
its channel count is 3 or 4; on success it appends exactly one entry
(bearing the freshly generated handle and the tag) and the load counter —
the registry length — advances by one; on failure the registry is
unchanged. -/
theorem CreateGLTexture_spec (decoded : Option ImageData) (tag : String)
    (gl : GLState) (entries : List TEXTURE_ID) :
    ((CreateGLTexture decoded tag gl entries).fst = true ↔
      ∃ image, decoded = some image ∧
        (image.colorChannels = 3 ∨ image.colorChannels = 4)) ∧
    (CreateGLTexture decoded tag gl entries).snd.snd =
      (if (CreateGLTexture decoded tag gl entries).fst = true
       then entries ++ [{ ID := gl.nextHandle, tag := tag }]
       else entries) ∧
    ((CreateGLTexture decoded tag gl entries).snd.snd).length =
      entries.length +
        (if (CreateGLTexture decoded tag gl entries).fst = true then 1 else 0) := by
  rcases decoded with _ | image
  · simp [CreateGLTexture]
  · by_cases h3 : image.colorChannels = 3
    · simp [CreateGLTexture, glGenTextures, h3]
    · by_cases h4 : image.colorChannels = 4
      · simp [CreateGLTexture, glGenTextures, h3, h4]
      · simp [CreateGLTexture, glGenTextures, h3, h4]

/-- C8: after `DefineObjectMaterials` the registry holds exactly four
entries tagged, in insertion order, "clay", "wood", "glass" and the empty
string; no entry is tagged "cloth" (the cloth values were assigned to the
already-pushed `glassMaterial` local while the default-initialized
`clothMaterial` was pushed), `FindMaterial("cloth")` matches no entry
(leaving the out-parameter untouched, though still reporting `true` since
the registry is non-empty), and the "glass" entry retains the glass values:
diffuse (0.2, 0.2, 0.2), specular (1, 1, 1), shininess 95. -/
theorem DefineObjectMaterials_contents :
    DefineObjectMaterials.map OBJECT_MATERIAL.tag = ["clay", "wood", "glass", ""] ∧
    DefineObjectMaterials.length = 4 ∧
    "cloth" ∉ DefineObjectMaterials.map OBJECT_MATERIAL.tag ∧
    (∀ m : OBJECT_MATERIAL,
      FindMaterial DefineObjectMaterials "cloth" m = (true, m)) ∧
    DefineObjectMaterials.getD 2 defaultMaterial =
      { defaultMaterial with
          diffuseColor := ⟨0.2, 0.2, 0.2⟩
          specularColor := ⟨1, 1, 1⟩
          shininess := 95
          tag := "glass" } := by
  refine ⟨rfl, rfl, by decide, ?_, rfl⟩
  intro m
  have hmiss : ∀ e ∈ DefineObjectMaterials, e.tag ≠ "cloth" := by decide
  have hlen : DefineObjectMaterials.length ≠ 0 := by decide
  have hscan := FindMaterialScan_no_match DefineObjectMaterials m hmiss
  simp only [FindMaterial, if_neg hlen, hscan]

/-- C8 (witness): the no-match scan for "cloth" at a concrete
out-parameter. -/
theorem DefineObjectMaterials_contents_witness :
    FindMaterial DefineObjectMaterials "cloth" defaultMaterial =
      (true, defaultMaterial) :=
  DefineObjectMaterials_contents.2.2.2.1 defaultMaterial

/-- C9: `RenderScene` makes exactly 8 object-routine calls in the fixed
order floor, wall, bookcase, window, vase, book, desk, cat, and — the
routines being deterministic with no per-object state retained between
frames — issues the same draw-call sequence on every invocation. -/
theorem RenderScene_routine_order :
    RenderSceneRoutines =
      [.floor, .wall, .bookcase, .window, .vase, .book, .desk, .cat] ∧
    RenderSceneRoutines.length = 8 ∧
    ∀ frame1 frame2 : Nat, RenderScene frame1 = RenderScene frame2 :=
  ⟨rfl, rfl, fun _ _ => rfl⟩

/-- C10: `DestroyGLTextures` deletes nothing: it allocates a fresh handle
for every registered entry and overwrites the stored ID with it, leaving
the entry count, the tags, the deleted-texture list and every previously
live GPU texture untouched (the live list only grows by the fresh
handles). -/
theorem DestroyGLTextures_regenerates :
    ∀ (entries : List TEXTURE_ID) (gl : GLState),
      (DestroyGLTextures gl entries).snd.length = entries.length ∧
      (DestroyGLTextures gl entries).snd.map TEXTURE_ID.tag =
        entries.map TEXTURE_ID.tag ∧
      (DestroyGLTextures gl entries).fst.deleted = gl.deleted ∧
      (DestroyGLTextures gl entries).fst.live =
        gl.live ++ List.range' gl.nextHandle entries.length ∧
      (DestroyGLTextures gl entries).fst.nextHandle =
        gl.nextHandle + entries.length ∧
      ∀ i : Nat, i < entries.length →
        ((DestroyGLTextures gl entries).snd.getD i defaultTexture).ID =
          gl.nextHandle + i
  | [], gl => by simp [DestroyGLTextures]
  | e :: rest, gl => by
    obtain ⟨ihlen, ihtag, ihdel, ihlive, ihnext, ihid⟩ :=
      DestroyGLTextures_regenerates rest (glGenTextures gl).snd
    refine ⟨?_, ?_, ?_, ?_, ?_, ?_⟩
    · simp [DestroyGLTextures, ihlen]
    · simp [DestroyGLTextures, ihtag]
    · simpa [DestroyGLTextures, glGenTextures] using ihdel
    · simp only [List.length_cons]
      rw [List.range'_succ gl.nextHandle rest.length 1]
      simp only [DestroyGLTextures]
      rw [ihlive]
      simp [glGenTextures]
    · simp only [DestroyGLTextures]
      rw [ihnext]
      simp [glGenTextures]
      omega
    · intro i hi
      match i with
      | 0 => simp [DestroyGLTextures, glGenTextures]
      | i + 1 =>
        have hi' : i < rest.length := by simpa using hi
        have h := ihid i hi'
        simp only [DestroyGLTextures, List.getD_cons_succ]
        rw [h]
        simp [glGenTextures]
        omega

/-- C10 (witness): regeneration at a concrete GL state and registry — the
third entry's stored handle becomes fresh handle 102 = 100 + 2. -/
theorem DestroyGLTextures_regenerates_witness :
    2 < demoTextures.length ∧
    ((DestroyGLTextures demoGL demoTextures).snd.getD 2 defaultTexture).ID = 102 := by
  refine ⟨by decide, ?_⟩
  have h := (DestroyGLTextures_regenerates demoTextures demoGL).2.2.2.2.2 2 (by decide)
  simpa [demoGL] using h

end SceneManager
